import Mathlib

/-!
Shallow embedding of `src/classroom_simulation.py`
(`EducationalSystemSimulation`).

Numeric values are modelled as exact rationals (`ℚ`); Python `int`
truncation is `int_trunc`.  The numpy random draws are modelled by an
oracle `Streams` supplying the raw normal samples and the random
positions; the code's deterministic post-processing (`np.maximum(0.3, ·)`,
pairing into coordinates) is embedded literally.  The logistic
`probability_of_passing` uses `Real.exp`, hence lives over `ℝ`.
-/

/-- The four slider keys of `self.sliders` / `self.param_ranges`. -/
inductive SliderName
  | class_size
  | teacher_skill
  | curriculum_intensity
  | time_available
deriving DecidableEq

/-- `self.param_ranges` from `setup_parameters` (lines 27-32). -/
def param_ranges : SliderName → ℚ × ℚ
  | .class_size => (5, 40)
  | .teacher_skill => (0.1, 1.0)
  | .curriculum_intensity => (50, 200)
  | .time_available => (30, 120)

/-- One slider's state: `{'value': ..., 'rect': pygame.Rect(l, t, w, h), 'dragging': ...}`. -/
structure Slider where
  value : ℚ
  rect_left : ℤ
  rect_top : ℤ
  rect_width : ℤ
  rect_height : ℤ
  dragging : Bool
deriving DecidableEq

/-- One entry of `self.history` (lines 202-206). -/
structure HistoryRecord where
  fail_rate : ℚ
  avg_capacity_ratio : ℚ
  demand : ℚ
deriving DecidableEq

/-- Oracle for the numpy random draws: raw `np.random.normal(loc=1.1, scale=0.25)`
samples and the `np.random.randint` coordinates of `setup_students`. -/
structure Streams where
  normal_samples : ℕ → ℚ
  pos_x : ℕ → ℤ
  pos_y : ℕ → ℤ

/-- The mutable state of `EducationalSystemSimulation` (model + input layer;
the two rendering backends hold no model state). -/
structure SimState where
  num_students : ℕ
  curriculum_content : ℚ
  time_allotted : ℚ
  teacher_skill : ℚ
  passing_threshold : ℚ
  learning_speeds : List ℚ
  student_positions : List (ℤ × ℤ)
  history : List HistoryRecord
  sliders : SliderName → Slider

/-- Python `int(q)`: truncation toward zero. -/
def int_trunc (q : ℚ) : ℤ :=
  if 0 ≤ q then ⌊q⌋ else ⌈q⌉

/-- `int(q)` used as a size (nonnegative in the program since slider values
are clamped to `[5,40]`). -/
def int_trunc_nat (q : ℚ) : ℕ :=
  (int_trunc q).toNat

/-- `class_size_penalty(self, n)` (line 36): `1 + 0.025 * (n - 1)`. -/
def class_size_penalty (n : ℕ) : ℚ :=
  1 + 0.025 * ((n : ℚ) - 1)

/-- `compute_effective_demand(self)` (lines 38-44). -/
def compute_effective_demand (s : SimState) : ℚ :=
  let base_pace := s.curriculum_content / s.time_allotted
  let teacher_factor := 1.0 / s.teacher_skill
  let size_penalty := class_size_penalty s.num_students
  base_pace * teacher_factor * size_penalty

/-- `compute_effective_demand` as a pure function of the four parameters. -/
def effective_demand_fn (cc ta ts : ℚ) (n : ℕ) : ℚ :=
  (cc / ta) * (1.0 / ts) * class_size_penalty n

/-- `compute_capacity_ratio(self, learning_speed)` (lines 46-49). -/
def compute_capacity_ratio (s : SimState) (learning_speed : ℚ) : ℚ :=
  let demand := compute_effective_demand s
  learning_speed / demand

/-- `probability_of_passing(self, capacity_ratio, sharpness=5)` (lines 51-53). -/
noncomputable def probability_of_passing (s : SimState) (capacity_ratio : ℝ)
    (sharpness : ℝ := 5) : ℝ :=
  1 / (1 + Real.exp (-sharpness * (capacity_ratio - (s.passing_threshold : ℝ))))

/-- `setup_students(self)` (lines 55-65): resample `learning_speeds`
(normal draws floored at 0.3 by `np.maximum`) and `student_positions`. -/
def setup_students (s : SimState) (ω : Streams) : SimState :=
  { s with
    learning_speeds :=
      (List.range s.num_students).map fun i => max 0.3 (ω.normal_samples i)
    student_positions :=
      (List.range s.num_students).map fun i => (ω.pos_x i, ω.pos_y i) }

/-- `update_parameters(self)` (lines 84-93): pull slider values into the
parameters, then resample the population iff its length differs from the
new `num_students`. -/
def update_parameters (s : SimState) (ω : Streams) : SimState :=
  let s1 := { s with
    num_students := int_trunc_nat (s.sliders .class_size).value
    teacher_skill := (s.sliders .teacher_skill).value
    curriculum_content := (s.sliders .curriculum_intensity).value
    time_allotted := (s.sliders .time_available).value }
  if s1.learning_speeds.length ≠ s1.num_students then setup_students s1 ω else s1

/-- The per-frame list `capacity_ratios` (line 197). -/
def capacity_ratios (s : SimState) : List ℚ :=
  s.learning_speeds.map (compute_capacity_ratio s)

/-- `fail_count` (line 198): `sum(1 for cr in capacity_ratios if cr < self.passing_threshold)`. -/
def fail_count (s : SimState) : ℕ :=
  (capacity_ratios s).countP fun cr => decide (cr < s.passing_threshold)

/-- `fail_rate` (line 199): `(fail_count / self.num_students) * 100`. -/
def fail_rate (s : SimState) : ℚ :=
  ((fail_count s : ℚ) / (s.num_students : ℚ)) * 100

/-- `np.mean` on a list of rationals. -/
def list_mean (l : List ℚ) : ℚ :=
  l.sum / (l.length : ℚ)

/-- The record appended each frame (lines 202-206). -/
def frame_record (s : SimState) : HistoryRecord :=
  { fail_rate := fail_rate s
    avg_capacity_ratio := list_mean (capacity_ratios s)
    demand := compute_effective_demand s }

/-- `self.history.append(r)` followed by `if len(self.history) > 50:
self.history.pop(0)` (lines 202-210). -/
def record_history (h : List HistoryRecord) (r : HistoryRecord) : List HistoryRecord :=
  let h1 := h ++ [r]
  if 50 < h1.length then h1.drop 1 else h1

/-- pygame `Rect(l, t, w, h).collidepoint((px, py))`: inside the rectangle,
right and bottom edges excluded. -/
def collidepoint (l t w h px py : ℤ) : Bool :=
  decide (l ≤ px) && decide (px < l + w) && decide (t ≤ py) && decide (py < t + h)

/-- The handle x-coordinate recomputed on MOUSEBUTTONDOWN (lines 174-175). -/
def handle_x (sl : Slider) (lo hi : ℚ) : ℚ :=
  (sl.rect_left : ℚ) + (sl.value - lo) / (hi - lo) * (sl.rect_width : ℚ)

/-- The MOUSEMOTION value update for a dragging slider (lines 188-191):
clamp the horizontal offset into `[0, width]`, then interpolate over the
slider's range. -/
def motion_value (px : ℤ) (sl : Slider) (lo hi : ℚ) : ℚ :=
  let rel_x := max 0 (min (px - sl.rect_left) sl.rect_width)
  let proportion := (rel_x : ℚ) / (sl.rect_width : ℚ)
  lo + proportion * (hi - lo)

/-- The pygame events the loop inspects (lines 167-191). -/
inductive PyEvent
  | quit
  | mousedown (pos : ℤ × ℤ)
  | mouseup (pos : ℤ × ℤ)
  | motion (pos : ℤ × ℤ)

/-- The event-handling block of `run` (lines 167-191) acting on the slider
dictionary. -/
def process_event (e : PyEvent) (sl : SliderName → Slider) : SliderName → Slider :=
  match e with
  | .quit => sl
  | .mousedown p => fun name =>
      let s := sl name
      let lo := (param_ranges name).1
      let hi := (param_ranges name).2
      let hx := handle_x s lo hi
      let hit := collidepoint (int_trunc (hx - 4)) (s.rect_top - 3) 8 21 p.1 p.2
      if hit then { s with dragging := true } else s
  | .mouseup _ => fun name => { sl name with dragging := false }
  | .motion p => fun name =>
      let s := sl name
      if s.dragging then
        { s with value := motion_value p.1 s (param_ranges name).1 (param_ranges name).2 }
      else s

/-- The slider dictionary built in `setup_pygame` (lines 77-82), given the
initial `num_students`, `teacher_skill`, `curriculum_content`, `time_allotted`. -/
def initial_sliders (n : ℕ) (ts cc ta : ℚ) : SliderName → Slider
  | .class_size => ⟨(n : ℚ), 20, 410, 160, 15, false⟩
  | .teacher_skill => ⟨ts, 20, 435, 160, 15, false⟩
  | .curriculum_intensity => ⟨cc, 20, 460, 160, 15, false⟩
  | .time_available => ⟨ta, 20, 485, 160, 15, false⟩

/-- `__init__(self, num_students=25)` with `setup_parameters`,
`setup_pygame`, `setup_students` and `self.history = []`. -/
def initial_sim (ω : Streams) : SimState :=
  setup_students
    { num_students := 25
      curriculum_content := 80
      time_allotted := 70
      teacher_skill := 0.85
      passing_threshold := 1.0
      learning_speeds := []
      student_positions := []
      history := []
      sliders := initial_sliders 25 0.85 80 70 } ω

/-- One iteration of the `while running` loop of `run` (lines 166-210), up
to and including the history update; drawing is excluded (it reads state
but mutates none of the model). -/
def frame_step (s : SimState) (events : List PyEvent) (ω : Streams) : SimState :=
  let s1 := { s with sliders := events.foldl (fun sl e => process_event e sl) s.sliders }
  let s2 := update_parameters s1 ω
  { s2 with history := record_history s2.history (frame_record s2) }

/-- A constant oracle used to instantiate theorems at concrete states. -/
def const_streams : Streams :=
  { normal_samples := fun _ => 1.1, pos_x := fun _ => 100, pos_y := fun _ => 100 }

/-- C1: for every state, `compute_effective_demand` is
`(curriculumContent / timeAllotted) * (1/teacherSkill) * (1 + 0.025*(classSize-1))`;
on the initial parameters (80, 70, 0.85, 25) it equals `256/119 ≈ 2.1514`,
and a student with learning speed 1.1 has capacity ratio
`1309/2560 ≈ 0.5113`, which is below the passing threshold (fails). -/
theorem effective_demand_formula_and_example (ω : Streams) :
    (∀ s : SimState, compute_effective_demand s =
      (s.curriculum_content / s.time_allotted) * (1 / s.teacher_skill) *
        (1 + 0.025 * ((s.num_students : ℚ) - 1))) ∧
    compute_effective_demand (initial_sim ω) = 256 / 119 ∧
    |compute_effective_demand (initial_sim ω) - 2.1514| < 0.001 ∧
    compute_capacity_ratio (initial_sim ω) 1.1 = 1309 / 2560 ∧
    |compute_capacity_ratio (initial_sim ω) 1.1 - 0.5113| < 0.001 ∧
    compute_capacity_ratio (initial_sim ω) 1.1 < (initial_sim ω).passing_threshold := by
  refine ⟨fun s => by norm_num [compute_effective_demand, class_size_penalty], ?_, ?_, ?_, ?_, ?_⟩ <;>
    simp [initial_sim, setup_students, compute_capacity_ratio,
      compute_effective_demand, class_size_penalty] <;> norm_num [abs_lt]

/-- C6: within the slider ranges the divisors `time_allotted` and
`teacher_skill` are nonzero and `effective_demand_fn` is strictly
positive (so every capacity ratio is well-defined). -/
theorem effective_demand_pos (cc ta ts : ℚ) (n : ℕ)
    (hn1 : 5 ≤ n) (hn2 : n ≤ 40)
    (hts1 : 0.1 ≤ ts) (hts2 : ts ≤ 1.0)
    (hcc1 : 50 ≤ cc) (hcc2 : cc ≤ 200)
    (hta1 : 30 ≤ ta) (hta2 : ta ≤ 120) :
    ta ≠ 0 ∧ ts ≠ 0 ∧ 0 < effective_demand_fn cc ta ts n := by
  have hta : (0 : ℚ) < ta := by linarith
  have hts : (0 : ℚ) < ts := by linarith
  have hcc : (0 : ℚ) < cc := by linarith
  have hpen : 0 < class_size_penalty n := by
    have : (0 : ℚ) ≤ (n : ℚ) := Nat.cast_nonneg n
    unfold class_size_penalty
    nlinarith
  refine ⟨ne_of_gt hta, ne_of_gt hts, ?_⟩
  unfold effective_demand_fn
  positivity

/-- Witness for `effective_demand_pos` at the initial parameters. -/
theorem effective_demand_pos_witness :
    (80 : ℚ) / 70 ≠ 0 ∧ (0.85 : ℚ) ≠ 0 ∧ 0 < effective_demand_fn 80 70 0.85 25 := by
  have h := effective_demand_pos 80 70 0.85 25 (by norm_num) (by norm_num)
    (by norm_num) (by norm_num) (by norm_num) (by norm_num) (by norm_num) (by norm_num)
  exact ⟨by norm_num, h.2.1, h.2.2⟩

/-- C5: over the clamped ranges, `effective_demand_fn` is non-decreasing in
curriculum content and class size, non-increasing in teacher skill and time
allotted; and for a fixed positive effective demand,
`compute_capacity_ratio` is strictly increasing in learning speed. -/
theorem effective_demand_monotone (cc cc' ta ta' ts ts' : ℚ) (n n' : ℕ)
    (hn1 : 5 ≤ n) (hn2 : n ≤ 40) (hn1' : 5 ≤ n') (hn2' : n' ≤ 40)
    (hts1 : 0.1 ≤ ts) (hts2 : ts ≤ 1.0) (hts1' : 0.1 ≤ ts') (hts2' : ts' ≤ 1.0)
    (hcc1 : 50 ≤ cc) (hcc2 : cc ≤ 200) (hcc1' : 50 ≤ cc') (hcc2' : cc' ≤ 200)
    (hta1 : 30 ≤ ta) (hta2 : ta ≤ 120) (hta1' : 30 ≤ ta') (hta2' : ta' ≤ 120) :
    (cc ≤ cc' → effective_demand_fn cc ta ts n ≤ effective_demand_fn cc' ta ts n) ∧
    (n ≤ n' → effective_demand_fn cc ta ts n ≤ effective_demand_fn cc ta ts n') ∧
    (ts ≤ ts' → effective_demand_fn cc ta ts' n ≤ effective_demand_fn cc ta ts n) ∧
    (ta ≤ ta' → effective_demand_fn cc ta' ts n ≤ effective_demand_fn cc ta ts n) ∧
    (∀ (st : SimState), 0 < compute_effective_demand st →
      ∀ v w : ℚ, v < w → compute_capacity_ratio st v < compute_capacity_ratio st w) := by
  have hta : (0 : ℚ) < ta := by linarith
  have hts : (0 : ℚ) < ts := by linarith
  have hts' : (0 : ℚ) < ts' := by linarith
  have hcc : (0 : ℚ) ≤ cc := by linarith
  have hpen : ∀ m : ℕ, 0 ≤ class_size_penalty m := by
    intro m
    have : (0 : ℚ) ≤ (m : ℚ) := Nat.cast_nonneg m
    unfold class_size_penalty
    nlinarith
  refine ⟨?_, ?_, ?_, ?_, ?_⟩
  · intro h
    unfold effective_demand_fn
    gcongr
    exact hpen n
  · intro h
    unfold effective_demand_fn
    have hmono : class_size_penalty n ≤ class_size_penalty n' := by
      have : (n : ℚ) ≤ (n' : ℚ) := by exact_mod_cast h
      unfold class_size_penalty
      nlinarith
    gcongr
  · intro h
    unfold effective_demand_fn
    gcongr
    exact hpen n
  · intro h
    unfold effective_demand_fn
    gcongr
    exact hpen n
  · intro st hd v w hvw
    show v / compute_effective_demand st < w / compute_effective_demand st
    exact (div_lt_div_right hd).mpr hvw

/-- Witness for `effective_demand_monotone` at concrete in-range parameters. -/
theorem effective_demand_monotone_witness :
    effective_demand_fn 50 30 0.1 5 ≤ effective_demand_fn 60 30 0.1 5 ∧
    effective_demand_fn 50 30 0.1 5 ≤ effective_demand_fn 50 30 0.1 6 ∧
    effective_demand_fn 50 30 0.2 5 ≤ effective_demand_fn 50 30 0.1 5 ∧
    effective_demand_fn 50 40 0.1 5 ≤ effective_demand_fn 50 30 0.1 5 ∧
    compute_capacity_ratio (initial_sim const_streams) 1 <
      compute_capacity_ratio (initial_sim const_streams) 2 := by
  have h := effective_demand_monotone 50 60 30 40 0.1 0.2 5 6
    (by norm_num) (by norm_num) (by norm_num) (by norm_num)
    (by norm_num) (by norm_num) (by norm_num) (by norm_num)
    (by norm_num) (by norm_num) (by norm_num) (by norm_num)
    (by norm_num) (by norm_num) (by norm_num) (by norm_num)
  have hdem : 0 < compute_effective_demand (initial_sim const_streams) := by
    simp [initial_sim, setup_students, compute_effective_demand, class_size_penalty]
    norm_num
  exact ⟨h.1 (by norm_num), h.2.1 (by norm_num), h.2.2.1 (by norm_num),
    h.2.2.2.1 (by norm_num), h.2.2.2.2 (initial_sim const_streams) hdem 1 2 (by norm_num)⟩

/-- C7: `probability_of_passing` is the logistic curve
`1 / (1 + e^(-sharpness*(capacity_ratio - threshold)))`, while the frame
tally counts a student as failing exactly when the capacity ratio is
strictly below the hard threshold 1.0 — it never calls the smooth curve. -/
theorem pass_probability_logistic_and_hard_tally (s : SimState)
    (hth : s.passing_threshold = 1) :
    (∀ cr sharpness : ℝ, probability_of_passing s cr sharpness =
      1 / (1 + Real.exp (-sharpness * (cr - (s.passing_threshold : ℝ))))) ∧
    fail_count s = ((capacity_ratios s).filter fun cr => decide (cr < 1)).length := by
  refine ⟨fun cr sharpness => rfl, ?_⟩
  simp [fail_count, hth, List.countP_eq_length_filter]

/-- Witness for `pass_probability_logistic_and_hard_tally` at the initial state. -/
theorem pass_probability_hard_tally_witness :
    fail_count (initial_sim const_streams) =
      ((capacity_ratios (initial_sim const_streams)).filter fun cr => decide (cr < 1)).length :=
  (pass_probability_logistic_and_hard_tally (initial_sim const_streams)
    (by norm_num [initial_sim, setup_students])).2

/-- C2: the fail rate recorded each frame equals
`100 * count(capacityRatio < threshold) / classSize`, and for a population
of `classSize` students it lies in `[0, 100]`. -/
theorem fail_rate_formula (s : SimState)
    (hlen : s.learning_speeds.length = s.num_students) (hpos : 0 < s.num_students) :
    (frame_record s).fail_rate = 100 * (fail_count s : ℚ) / (s.num_students : ℚ) ∧
    0 ≤ (frame_record s).fail_rate ∧ (frame_record s).fail_rate ≤ 100 := by
  have hc : fail_count s ≤ s.num_students := by
    calc fail_count s ≤ (capacity_ratios s).length := List.countP_le_length _
    _ = s.learning_speeds.length := by simp [capacity_ratios]
    _ = s.num_students := hlen
  have hn : (0 : ℚ) < (s.num_students : ℚ) := by exact_mod_cast hpos
  have hcq : (fail_count s : ℚ) ≤ (s.num_students : ℚ) := by exact_mod_cast hc
  refine ⟨by simp [frame_record, fail_rate]; ring, ?_, ?_⟩
  · simp only [frame_record, fail_rate]
    positivity
  · show fail_rate s ≤ 100
    unfold fail_rate
    have h1 : (fail_count s : ℚ) / (s.num_students : ℚ) ≤ 1 := (div_le_one hn).mpr hcq
    nlinarith

/-- Witness for `fail_rate_formula` at the initial state. -/
theorem fail_rate_formula_witness :
    (frame_record (initial_sim const_streams)).fail_rate =
      100 * (fail_count (initial_sim const_streams) : ℚ) /
        ((initial_sim const_streams).num_students : ℚ) ∧
    0 ≤ (frame_record (initial_sim const_streams)).fail_rate ∧
    (frame_record (initial_sim const_streams)).fail_rate ≤ 100 :=
  fail_rate_formula (initial_sim const_streams)
    (by simp [initial_sim, setup_students]) (by simp [initial_sim, setup_students])

/-- `record_history` with its local binding reduced. -/
theorem record_history_def (h : List HistoryRecord) (r : HistoryRecord) :
    record_history h r =
      if 50 < (h ++ [r]).length then (h ++ [r]).drop 1 else h ++ [r] := rfl

/-- Below the bound, a frame's history update is a plain append. -/
theorem record_history_small (h : List HistoryRecord) (r : HistoryRecord)
    (hle : h.length ≤ 49) : record_history h r = h ++ [r] := by
  rw [record_history_def, if_neg]
  simp only [List.length_append, List.length_cons, List.length_nil]
  omega

/-- At the bound, a frame's history update appends and evicts the oldest. -/
theorem record_history_evict (h : List HistoryRecord) (r : HistoryRecord)
    (h50 : h.length = 50) : record_history h r = (h ++ [r]).drop 1 := by
  rw [record_history_def, if_pos]
  simp [List.length_append, h50]

/-- While the history stays at 50 or fewer entries, each frame just appends. -/
theorem record_history_foldl_under (l : List HistoryRecord) :
    ∀ pre : List HistoryRecord, pre.length + l.length ≤ 50 →
      List.foldl record_history pre l = pre ++ l := by
  induction l with
  | nil => intro pre _; simp
  | cons a l ih =>
    intro pre hle
    simp only [List.length_cons] at hle
    have hstep : record_history pre a = pre ++ [a] :=
      record_history_small pre a (by omega)
    have hrec : List.foldl record_history (pre ++ [a]) l = (pre ++ [a]) ++ l := by
      apply ih
      simp only [List.length_append, List.length_cons, List.length_nil]
      omega
    simp [List.foldl_cons, hstep, hrec]

/-- Folding exactly 51 records into a history evicts precisely the oldest one. -/
theorem record_history_foldl_exact51 (l : List HistoryRecord) :
    ∀ pre : List HistoryRecord, pre.length + l.length = 51 → l ≠ [] →
      List.foldl record_history pre l = (pre ++ l).drop 1 := by
  induction l with
  | nil => intro pre _ hne; exact absurd rfl hne
  | cons a l ih =>
    intro pre hlen _
    simp only [List.length_cons] at hlen
    by_cases hl : l = []
    · subst hl
      simp only [List.length_nil] at hlen
      have h50 : pre.length = 50 := by omega
      simp [List.foldl_cons, record_history_evict pre a h50]
    · have h1 : 1 ≤ l.length := List.length_pos.mpr hl
      have hstep : record_history pre a = pre ++ [a] :=
        record_history_small pre a (by omega)
      have hrec := ih (pre ++ [a]) (by
        simp only [List.length_append, List.length_cons, List.length_nil]
        omega) hl
      simp [List.foldl_cons, hstep, hrec]

/-- C3: `record_history` appends one record and evicts the oldest only past
length 50, so the history never exceeds 50 records; after appending 51
records to an empty history the first-appended record is gone and the most
recent one is present (FIFO eviction). -/
theorem history_fifo_bounded (r0 : HistoryRecord) (rest : List HistoryRecord)
    (hlen : rest.length = 50) (hmem : r0 ∉ rest) (hne : rest ≠ []) :
    (∀ (h : List HistoryRecord) (r : HistoryRecord),
      record_history h r = if 50 < h.length + 1 then (h ++ [r]).drop 1 else h ++ [r]) ∧
    (∀ (h : List HistoryRecord) (r : HistoryRecord),
      h.length ≤ 50 → (record_history h r).length ≤ 50) ∧
    List.foldl record_history [] (r0 :: rest) = rest ∧
    r0 ∉ List.foldl record_history [] (r0 :: rest) ∧
    rest.getLast hne ∈ List.foldl record_history [] (r0 :: rest) := by
  have hfold : List.foldl record_history [] (r0 :: rest) = rest := by
    have := record_history_foldl_exact51 (r0 :: rest) []
      (by simp [hlen]) (by simp)
    simpa using this
  refine ⟨?_, ?_, hfold, ?_, ?_⟩
  · intro h r
    rw [record_history_def]
    simp [List.length_append]
  · intro h r hle
    by_cases hc : h.length ≤ 49
    · rw [record_history_small h r hc]
      simp only [List.length_append, List.length_cons, List.length_nil]
      omega
    · have h50 : h.length = 50 := by omega
      rw [record_history_evict h r h50]
      simp only [List.length_drop, List.length_append, List.length_cons, List.length_nil]
      omega
  · rw [hfold]; exact hmem
  · rw [hfold]; exact List.getLast_mem hne

/-- A seed record distinct from every record of `hist_tail`. -/
def hist_seed : HistoryRecord := ⟨0, 0, 0⟩

/-- Fifty further records, none equal to `hist_seed`. -/
def hist_tail : List HistoryRecord := List.replicate 50 ⟨1, 0, 0⟩

/-- Witness for `history_fifo_bounded` on 51 concrete records. -/
theorem history_fifo_bounded_witness :
    List.foldl record_history [] (hist_seed :: hist_tail) = hist_tail :=
  (history_fifo_bounded hist_seed hist_tail (by decide) (by decide) (by decide)).2.2.1

/-- C4: each parameter update sets the class size from the class-size
slider; when the current population length differs from it, the whole
learning-speed population is replaced by that many fresh samples, each
floored at 0.3; when it matches, the learning speeds are left untouched. -/
theorem resample_on_size_change (s : SimState) (ω : Streams) :
    (update_parameters s ω).num_students =
      int_trunc_nat (s.sliders SliderName.class_size).value ∧
    (s.learning_speeds.length ≠ int_trunc_nat (s.sliders SliderName.class_size).value →
      (update_parameters s ω).learning_speeds =
        (List.range (int_trunc_nat (s.sliders SliderName.class_size).value)).map
          (fun i => max 0.3 (ω.normal_samples i)) ∧
      (update_parameters s ω).learning_speeds.length =
        int_trunc_nat (s.sliders SliderName.class_size).value ∧
      ∀ x ∈ (update_parameters s ω).learning_speeds, 0.3 ≤ x) ∧
    (s.learning_speeds.length = int_trunc_nat (s.sliders SliderName.class_size).value →
      (update_parameters s ω).learning_speeds = s.learning_speeds) := by
  by_cases hM : s.learning_speeds.length = int_trunc_nat (s.sliders SliderName.class_size).value
  · refine ⟨?_, fun hne => absurd hM hne, fun _ => ?_⟩ <;>
      simp [update_parameters, hM]
  · refine ⟨?_, fun _ => ⟨?_, ?_, ?_⟩, fun heq => absurd heq hM⟩
    · simp [update_parameters, setup_students, hM]
    · simp [update_parameters, setup_students, hM]
    · simp [update_parameters, setup_students, hM]
    · intro x hx
      simp only [update_parameters, setup_students, if_pos hM, List.mem_map] at hx
      obtain ⟨i, _, rfl⟩ := hx
      exact le_max_left _ _

/-- A state whose class-size slider (value 30) disagrees with its current
population (25 students), forcing a resample. -/
def shifted_state : SimState :=
  { initial_sim const_streams with sliders := initial_sliders 30 0.85 80 70 }

/-- Witness for `resample_on_size_change`: the forced-resample branch at a
concrete state. -/
theorem resample_on_size_change_witness :
    (update_parameters shifted_state const_streams).learning_speeds =
      (List.range (int_trunc_nat ((shifted_state.sliders SliderName.class_size).value))).map
        (fun i => max 0.3 (const_streams.normal_samples i)) :=
  ((resample_on_size_change shifted_state const_streams).2.1 (by decide)).1

/-- C9: processing a pointer-up event puts every slider in the not-dragging
state, whatever the pointer position and whatever was dragging before. -/
theorem mouseup_clears_dragging (sl : SliderName → Slider) (pos : ℤ × ℤ)
    (name : SliderName) :
    (process_event (PyEvent.mouseup pos) sl name).dragging = false := rfl

/-- C10: after a parameter update, the stored class size (the integer
truncation of the class-size slider's value) equals both the length of the
learning-speed population and the length of the position list, so the
fail-rate denominator matches the number of counted ratios. -/
theorem class_size_matches_population (s : SimState) (ω : Streams)
    (hpp : s.learning_speeds.length = s.student_positions.length) :
    (update_parameters s ω).num_students = (update_parameters s ω).learning_speeds.length ∧
    (update_parameters s ω).num_students = (update_parameters s ω).student_positions.length ∧
    (update_parameters s ω).num_students =
      int_trunc_nat (s.sliders SliderName.class_size).value := by
  by_cases hM : s.learning_speeds.length = int_trunc_nat (s.sliders SliderName.class_size).value
  · refine ⟨?_, ?_, ?_⟩ <;> simp [update_parameters, hM, ← hpp]
  · refine ⟨?_, ?_, ?_⟩ <;> simp [update_parameters, setup_students, hM]

/-- Witness for `class_size_matches_population` at the initial state. -/
theorem class_size_matches_population_witness :
    (update_parameters (initial_sim const_streams) const_streams).num_students =
      (update_parameters (initial_sim const_streams) const_streams).learning_speeds.length ∧
    (update_parameters (initial_sim const_streams) const_streams).num_students =
      (update_parameters (initial_sim const_streams) const_streams).student_positions.length ∧
    (update_parameters (initial_sim const_streams) const_streams).num_students =
      int_trunc_nat (((initial_sim const_streams).sliders SliderName.class_size).value) :=
  class_size_matches_population (initial_sim const_streams) const_streams (by decide)

/-- C8: while a slider is dragging, a pointer-move sets its value to the
linear interpolation of the horizontal offset across the track, clamped to
the slider's `[min, max]` range; a pointer at or beyond either track end
yields exactly the range's min or max. -/
theorem drag_motion_clamps (sl : SliderName → Slider) (name : SliderName) (px py : ℤ)
    (hd : (sl name).dragging = true) (hw : 0 < (sl name).rect_width) :
    let lo := (param_ranges name).1
    let hi := (param_ranges name).2
    let v := (process_event (PyEvent.motion (px, py)) sl name).value
    (lo ≤ v ∧ v ≤ hi) ∧
    (px ≤ (sl name).rect_left → v = lo) ∧
    ((sl name).rect_left + (sl name).rect_width ≤ px → v = hi) ∧
    ((sl name).rect_left ≤ px → px ≤ (sl name).rect_left + (sl name).rect_width →
      v = lo + ((px - (sl name).rect_left : ℤ) : ℚ) / ((sl name).rect_width : ℚ) * (hi - lo)) := by
  intro lo hi v
  have hlohi : lo ≤ hi := by cases name <;> norm_num [lo, hi, param_ranges]
  have hv : v = motion_value px (sl name) lo hi := by
    simp [v, process_event, hd]
  set left := (sl name).rect_left with hleft
  set w := (sl name).rect_width with hwdef
  set rel := max 0 (min (px - left) w) with hrel
  have hvform : v = lo + ((rel : ℤ) : ℚ) / (w : ℚ) * (hi - lo) := by
    rw [hv]; rfl
  have hrel0 : 0 ≤ rel := le_max_left _ _
  have hrelw : rel ≤ w := max_le (le_of_lt hw) (min_le_right _ _)
  have hwq : (0 : ℚ) < (w : ℚ) := by exact_mod_cast hw
  have hrelq0 : (0 : ℚ) ≤ ((rel : ℤ) : ℚ) := by exact_mod_cast hrel0
  have hrelqw : ((rel : ℤ) : ℚ) ≤ (w : ℚ) := by exact_mod_cast hrelw
  refine ⟨⟨?_, ?_⟩, ?_, ?_, ?_⟩
  · rw [hvform]
    have : 0 ≤ ((rel : ℤ) : ℚ) / (w : ℚ) * (hi - lo) :=
      mul_nonneg (div_nonneg hrelq0 (le_of_lt hwq)) (by linarith)
    linarith
  · rw [hvform]
    have h1 : ((rel : ℤ) : ℚ) / (w : ℚ) ≤ 1 := (div_le_one hwq).mpr hrelqw
    have : ((rel : ℤ) : ℚ) / (w : ℚ) * (hi - lo) ≤ 1 * (hi - lo) :=
      mul_le_mul_of_nonneg_right h1 (by linarith)
    linarith
  · intro hpx
    have hx : min (px - left) w ≤ 0 := le_trans (min_le_left _ _) (by omega)
    have : rel = 0 := by rw [hrel]; exact max_eq_left hx
    rw [hvform, this]
    simp
  · intro hpx
    have hx : min (px - left) w = w := min_eq_right (by omega)
    have : rel = w := by rw [hrel, hx]; exact max_eq_right (le_of_lt hw)
    rw [hvform, this, div_self (ne_of_gt hwq)]
    ring
  · intro hpx1 hpx2
    have hx : min (px - left) w = px - left := min_eq_left (by omega)
    have : rel = px - left := by rw [hrel, hx]; exact max_eq_right (by omega)
    rw [hvform, this]

/-- The initial sliders with every control in the dragging state. -/
def dragging_sliders : SliderName → Slider := fun name =>
  { initial_sliders 25 0.85 80 70 name with dragging := true }

/-- Witness for `drag_motion_clamps`: a pointer left of the class-size
track pins the value to the range minimum 5. -/
theorem drag_motion_clamps_witness :
    (process_event (PyEvent.motion (0, 0)) dragging_sliders SliderName.class_size).value =
      (param_ranges SliderName.class_size).1 :=
  (drag_motion_clamps dragging_sliders SliderName.class_size 0 0 rfl (by decide)).2.1
    (by decide)
